import Mathlib

/-!
Shallow embedding of the topolynserver inventory backend (Express + Prisma
over SQLite).  The database state is modelled as lists of rows for the three
tables `InventoryItem`, `Service` and `ItemLink` of the Prisma schema,
together with a counter feeding both the generated ids (uuid in the source)
and the timestamps.  Each route handler of `server.js` becomes a pure
function from a request and a database state to a typed result and the new
database state; Prisma calls are modelled row by row (`findUnique`/`findFirst`
as `List.find?`, `delete` as `List.filter`, `update` as `List.map`, the
`onDelete: Cascade` clauses of the schema as the corresponding filters on
dependent tables).
-/

namespace Topolyn

/-- A row of the `InventoryItem` table. -/
structure InventoryItem where
  id : String
  name : String
  type : String
  ipAddress : Option String
  createdAt : Nat
  updatedAt : Nat
  deriving DecidableEq, Repr

/-- A row of the `Service` table. -/
structure Service where
  id : String
  name : String
  imageUrl : Option String
  createdAt : Nat
  updatedAt : Nat
  inventoryItemId : String
  deriving DecidableEq, Repr

/-- A row of the `ItemLink` table. -/
structure ItemLink where
  id : String
  linkType : String
  port : Option String
  createdAt : Nat
  sourceItemId : String
  targetItemId : String
  deriving DecidableEq, Repr

/-- The whole database state plus the generator for fresh ids/timestamps. -/
structure DBState where
  items : List InventoryItem
  services : List Service
  links : List ItemLink
  nextId : Nat
  deriving DecidableEq, Repr

/-- The empty database created by the first-run migration. -/
def initState : DBState := ⟨[], [], [], 0⟩

/-- JavaScript truthiness test for an optional string field of a JSON body:
`!x` is true when the field is absent (`undefined`/`null`) or the empty
string. -/
def falsy : Option String → Bool
  | none => true
  | some s => s = ""

/-- Generated identifier (uuid in the source, fed by a counter here). -/
def genId (n : Nat) : String := "id-" ++ Nat.repr n

/-- `prisma.inventoryItem.findUnique({ where: { id } })`. -/
def findItem (db : DBState) (id : String) : Option InventoryItem :=
  db.items.find? (fun it => it.id = id)

/-! ### Request bodies -/

/-- One entry of the optional inline `services` array of `POST /api/inventory`. -/
structure ServiceEntry where
  name : Option String
  imageUrl : Option String
  deriving DecidableEq, Repr

/-- Body of `POST /api/inventory`. -/
structure CreateItemReq where
  name : Option String
  type : Option String
  ipAddress : Option String
  services : Option (List ServiceEntry)
  deriving DecidableEq, Repr

/-- Body of `PUT /api/inventory/:id`; an absent field is skipped by
`prisma.update`. -/
structure UpdateItemReq where
  name : Option String
  type : Option String
  ipAddress : Option String
  deriving DecidableEq, Repr

/-- Body of the service create/update endpoints. -/
structure ServiceReq where
  name : Option String
  imageUrl : Option String
  deriving DecidableEq, Repr

/-- Body of `POST /api/inventory/:id/links`. -/
structure AddLinkReq where
  linkedItemId : Option String
  linkType : Option String
  port : Option String
  deriving DecidableEq, Repr

/-- Body of `PUT /api/inventory/:id/links/:linkId`. -/
structure UpdateLinkReq where
  linkType : Option String
  port : Option String
  deriving DecidableEq, Repr

/-! ### Results -/

/-- Result of `POST /api/inventory`. -/
inductive CreateItemRes
  | badRequest
  | created (item : InventoryItem) (services : List Service)
  | serverError
  deriving DecidableEq, Repr

/-- HTTP status of a `CreateItemRes`. -/
def CreateItemRes.status : CreateItemRes → Nat
  | .badRequest => 400
  | .created _ _ => 201
  | .serverError => 500

/-- Result of `PUT /api/inventory/:id`. -/
inductive UpdateItemRes
  | ok (item : InventoryItem)
  | serverError
  deriving DecidableEq, Repr

/-- HTTP status of an `UpdateItemRes`. -/
def UpdateItemRes.status : UpdateItemRes → Nat
  | .ok _ => 200
  | .serverError => 500

/-- Result of `DELETE /api/inventory/:id`. -/
inductive DeleteItemRes
  | ok
  | serverError
  deriving DecidableEq, Repr

/-- HTTP status of a `DeleteItemRes`. -/
def DeleteItemRes.status : DeleteItemRes → Nat
  | .ok => 200
  | .serverError => 500

/-- Result of the service mutation endpoints. -/
inductive ServiceRes
  | badRequest
  | notFound
  | created (service : Service)
  | ok (service : Service)
  | deleted
  deriving DecidableEq, Repr

/-- HTTP status of a `ServiceRes`. -/
def ServiceRes.status : ServiceRes → Nat
  | .badRequest => 400
  | .notFound => 404
  | .created _ => 201
  | .ok _ => 200
  | .deleted => 200

/-- Result of `POST /api/inventory/:id/links`. -/
inductive AddLinkRes
  | badRequest
  | notFound
  | conflict (existing : ItemLink)
  | created (link : ItemLink) (targetItem : InventoryItem)
  deriving DecidableEq, Repr

/-- HTTP status of an `AddLinkRes`. -/
def AddLinkRes.status : AddLinkRes → Nat
  | .badRequest => 400
  | .notFound => 404
  | .conflict _ => 409
  | .created _ _ => 201

/-- Result of the link update/delete endpoints. -/
inductive LinkRes
  | badRequest
  | notFound
  | ok (link : ItemLink) (targetItem : Option InventoryItem)
  | deleted
  deriving DecidableEq, Repr

/-- HTTP status of a `LinkRes`. -/
def LinkRes.status : LinkRes → Nat
  | .badRequest => 400
  | .notFound => 404
  | .ok _ _ => 200
  | .deleted => 200

/-! ### Route handlers -/

/-- Services created inline by `POST /api/inventory` (the nested
`services.create` of the Prisma call), one fresh id/timestamp each. -/
def mkServices (itemId : String) : Nat → List ServiceEntry → List Service
  | _, [] => []
  | n, e :: es =>
      { id := genId n, name := e.name.getD "", imageUrl := e.imageUrl,
        createdAt := n, updatedAt := n, inventoryItemId := itemId }
        :: mkServices itemId (n + 1) es

/-- `POST /api/inventory` (server.js lines 106–138): 400 when `name` or
`type` is falsy; a nested service entry with no `name` makes the Prisma
create throw, caught as 500; otherwise the item and its inline services are
persisted and returned with 201. -/
def createItem (db : DBState) (req : CreateItemReq) : CreateItemRes × DBState :=
  if falsy req.name || falsy req.type then (.badRequest, db)
  else
    let entries := req.services.getD []
    if entries.any (fun e => e.name.isNone) then (.serverError, db)
    else
      let n := db.nextId
      let item : InventoryItem :=
        { id := genId n, name := req.name.getD "", type := req.type.getD "",
          ipAddress := req.ipAddress, createdAt := n, updatedAt := n }
      let newSvcs := mkServices item.id (n + 1) entries
      (.created item newSvcs,
        { db with items := item :: db.items, services := newSvcs ++ db.services,
                  nextId := n + 1 + entries.length })

/-- Field update applied by `PUT /api/inventory/:id`: a field absent from
the body is skipped by `prisma.update`, a present one overwrites. -/
def applyItemUpdate (req : UpdateItemReq) (now : Nat) (it : InventoryItem) :
    InventoryItem :=
  { it with
      name := req.name.getD it.name,
      type := req.type.getD it.type,
      ipAddress := match req.ipAddress with
        | none => it.ipAddress
        | some v => some v,
      updatedAt := now }

/-- `PUT /api/inventory/:id` (server.js lines 141–163): `prisma.update`
throws when no row has the id, caught as a generic 500; otherwise the given
fields overwrite and the updated item is returned. -/
def updateItem (db : DBState) (id : String) (req : UpdateItemReq) :
    UpdateItemRes × DBState :=
  match findItem db id with
  | none => (.serverError, db)
  | some it =>
      let n := db.nextId
      let upd := applyItemUpdate req n
      (.ok (upd it),
        { db with
            items := db.items.map (fun x => if x.id = id then upd x else x),
            nextId := n + 1 })

/-- `DELETE /api/inventory/:id` (server.js lines 166–179): `prisma.delete`
throws when no row has the id, caught as a generic 500; otherwise the item
row is removed and, by the `onDelete: Cascade` clauses of the schema, so are
its services and every link having it as source or target. -/
def deleteItem (db : DBState) (id : String) : DeleteItemRes × DBState :=
  match findItem db id with
  | none => (.serverError, db)
  | some _ =>
      (.ok,
        { db with
            items := db.items.filter (fun it => it.id ≠ id),
            services := db.services.filter (fun sv => sv.inventoryItemId ≠ id),
            links := db.links.filter
              (fun l => l.sourceItemId ≠ id ∧ l.targetItemId ≠ id) })

/-- `POST /api/inventory/:id/services` (server.js lines 206–237). -/
def addService (db : DBState) (id : String) (req : ServiceReq) :
    ServiceRes × DBState :=
  if falsy req.name then (.badRequest, db)
  else
    match findItem db id with
    | none => (.notFound, db)
    | some _ =>
        let n := db.nextId
        let sv : Service :=
          { id := genId n, name := req.name.getD "", imageUrl := req.imageUrl,
            createdAt := n, updatedAt := n, inventoryItemId := id }
        (.created sv, { db with services := sv :: db.services, nextId := n + 1 })

/-- Field update applied by `PUT /api/inventory/:id/services/:serviceId`:
`name` is present (checked truthy first), an absent `imageUrl` is skipped. -/
def applyServiceUpdate (req : ServiceReq) (now : Nat) (sv : Service) : Service :=
  { sv with
      name := req.name.getD sv.name,
      imageUrl := match req.imageUrl with
        | none => sv.imageUrl
        | some u => some u,
      updatedAt := now }

/-- `PUT /api/inventory/:id/services/:serviceId` (server.js lines 240–274):
400 when `name` is falsy; 404 when no service row has both the given id and
the given parent item id; else `prisma.update` by service id. -/
def updateService (db : DBState) (id serviceId : String) (req : ServiceReq) :
    ServiceRes × DBState :=
  if falsy req.name then (.badRequest, db)
  else
    match db.services.find?
        (fun sv => sv.id = serviceId ∧ sv.inventoryItemId = id) with
    | none => (.notFound, db)
    | some sv0 =>
        let n := db.nextId
        let upd := applyServiceUpdate req n
        (.ok (upd sv0),
          { db with
              services := db.services.map
                (fun sv => if sv.id = serviceId then upd sv else sv),
              nextId := n + 1 })

/-- `DELETE /api/inventory/:id/services/:serviceId` (server.js lines
277–302): 404 unless some service row has both the given id and the given
parent item id; else `prisma.delete` by service id. -/
def removeService (db : DBState) (id serviceId : String) :
    ServiceRes × DBState :=
  match db.services.find?
      (fun sv => sv.id = serviceId ∧ sv.inventoryItemId = id) with
  | none => (.notFound, db)
  | some _ =>
      (.deleted,
        { db with services := db.services.filter (fun sv => sv.id ≠ serviceId) })

/-- `POST /api/inventory/:id/links` (server.js lines 341–401): 400 when
`linkedItemId` or `linkType` is falsy; 404 unless both endpoint items exist;
409 returning the existing link when one already has the ordered pair;
otherwise the link is created and returned with the target item attached. -/
def addLink (db : DBState) (id : String) (req : AddLinkReq) :
    AddLinkRes × DBState :=
  if falsy req.linkedItemId then (.badRequest, db)
  else if falsy req.linkType then (.badRequest, db)
  else
    let tgt := req.linkedItemId.getD ""
    match findItem db id, findItem db tgt with
    | some _, some t =>
        match db.links.find?
            (fun l => l.sourceItemId = id ∧ l.targetItemId = tgt) with
        | some ex => (.conflict ex, db)
        | none =>
            let n := db.nextId
            let lk : ItemLink :=
              { id := genId n, linkType := req.linkType.getD "",
                port := req.port, createdAt := n,
                sourceItemId := id, targetItemId := tgt }
            (.created lk t, { db with links := lk :: db.links, nextId := n + 1 })
    | _, _ => (.notFound, db)

/-- Field update applied by `PUT /api/inventory/:id/links/:linkId`:
`linkType` is present (checked truthy first), an absent `port` is skipped. -/
def applyLinkUpdate (req : UpdateLinkReq) (l : ItemLink) : ItemLink :=
  { l with
      linkType := req.linkType.getD l.linkType,
      port := match req.port with
        | none => l.port
        | some p => some p }

/-- `PUT /api/inventory/:id/links/:linkId` (server.js lines 404–442): 400
when `linkType` is falsy; 404 when no link row has both the given id and the
given source item id; else `prisma.update` by link id, returning the link
with the target item attached. -/
def updateLink (db : DBState) (id linkId : String) (req : UpdateLinkReq) :
    LinkRes × DBState :=
  if falsy req.linkType then (.badRequest, db)
  else
    match db.links.find? (fun l => l.id = linkId ∧ l.sourceItemId = id) with
    | none => (.notFound, db)
    | some l0 =>
        let upd := applyLinkUpdate req
        (.ok (upd l0) (findItem db (upd l0).targetItemId),
          { db with
              links := db.links.map
                (fun l => if l.id = linkId then upd l else l) })

/-- `DELETE /api/inventory/:id/links/:linkId` (server.js lines 445–471):
404 when no link row has both the given id and the given source item id;
else `prisma.delete` by link id. -/
def removeLink (db : DBState) (id linkId : String) : LinkRes × DBState :=
  match db.links.find? (fun l => l.id = linkId ∧ l.sourceItemId = id) with
  | none => (.notFound, db)
  | some _ =>
      (.deleted, { db with links := db.links.filter (fun l => l.id ≠ linkId) })

/-! ### Read endpoints -/

/-- A link together with the related item eagerly loaded by a Prisma
`include` clause. -/
structure LinkWithItem where
  link : ItemLink
  relatedItem : Option InventoryItem
  deriving DecidableEq, Repr

/-- One element of the `GET /api/inventory` response: the item row, its
services, and — only when `includeLinks === "true"` — its outgoing links
(each with the target item nested) and incoming links (each with the source
item nested). -/
structure ItemView where
  item : InventoryItem
  services : List Service
  outgoingLinks : Option (List LinkWithItem)
  incomingLinks : Option (List LinkWithItem)
  deriving DecidableEq, Repr

/-- Outgoing links of an item with the target item nested. -/
def outgoingOf (db : DBState) (itemId : String) : List LinkWithItem :=
  (db.links.filter (fun l => l.sourceItemId = itemId)).map
    (fun l => ⟨l, findItem db l.targetItemId⟩)

/-- Incoming links of an item with the source item nested. -/
def incomingOf (db : DBState) (itemId : String) : List LinkWithItem :=
  (db.links.filter (fun l => l.targetItemId = itemId)).map
    (fun l => ⟨l, findItem db l.sourceItemId⟩)

/-- Ordering used by `orderBy: { createdAt: "asc" }`. -/
def byCreatedAt (a b : InventoryItem) : Prop := a.createdAt ≤ b.createdAt

instance : DecidableRel byCreatedAt := fun a b => Nat.decLe a.createdAt b.createdAt

instance : IsTotal InventoryItem byCreatedAt :=
  ⟨fun a b => Nat.le_total a.createdAt b.createdAt⟩

instance : IsTrans InventoryItem byCreatedAt :=
  ⟨fun _ _ _ hab hbc => Nat.le_trans hab hbc⟩

/-- `GET /api/inventory` (server.js lines 42–71): all items ordered by
`createdAt` ascending, services always attached, both link directions
attached exactly when the `includeLinks` query parameter equals `"true"`. -/
def listItems (db : DBState) (includeLinks : Option String) : List ItemView :=
  (List.insertionSort byCreatedAt db.items).map (fun it =>
    { item := it,
      services := db.services.filter (fun sv => sv.inventoryItemId = it.id),
      outgoingLinks :=
        if includeLinks = some "true" then some (outgoingOf db it.id) else none,
      incomingLinks :=
        if includeLinks = some "true" then some (incomingOf db it.id) else none })

/-- Result of `GET /api/inventory/:id`. -/
inductive GetItemRes
  | notFound
  | ok (view : ItemView)
  deriving DecidableEq, Repr

/-- `GET /api/inventory/:id` (server.js lines 74–103). -/
def getItem (db : DBState) (id : String) : GetItemRes :=
  match findItem db id with
  | none => .notFound
  | some it =>
      .ok { item := it,
            services := db.services.filter (fun sv => sv.inventoryItemId = it.id),
            outgoingLinks := some (outgoingOf db it.id),
            incomingLinks := some (incomingOf db it.id) }

/-- Result of `GET /api/inventory/:id/services`. -/
inductive ListServicesRes
  | notFound
  | ok (services : List Service)
  deriving DecidableEq, Repr

/-- `GET /api/inventory/:id/services` (server.js lines 182–203). -/
def listServices (db : DBState) (id : String) : ListServicesRes :=
  match findItem db id with
  | none => .notFound
  | some it =>
      .ok (db.services.filter (fun sv => sv.inventoryItemId = it.id))

/-- The projection `{id, linkType, port, targetItem}` returned by
`GET /api/inventory/:id/links`. -/
structure LinkOut where
  id : String
  linkType : String
  port : Option String
  targetItem : Option InventoryItem
  deriving DecidableEq, Repr

/-- Result of `GET /api/inventory/:id/links`. -/
inductive ListLinksRes
  | notFound
  | ok (links : List LinkOut)
  deriving DecidableEq, Repr

/-- `GET /api/inventory/:id/links` (server.js lines 305–338). -/
def listLinks (db : DBState) (id : String) : ListLinksRes :=
  match findItem db id with
  | none => .notFound
  | some it =>
      .ok ((db.links.filter (fun l => l.sourceItemId = it.id)).map
        (fun l => ⟨l.id, l.linkType, l.port, findItem db l.targetItemId⟩))

/-! ### The endpoint alphabet and its action on the database state -/

/-- One request to any endpoint of the API. -/
inductive Op
  | health
  | list (includeLinks : Option String)
  | get (id : String)
  | create (req : CreateItemReq)
  | update (id : String) (req : UpdateItemReq)
  | delete (id : String)
  | listServices (id : String)
  | addService (id : String) (req : ServiceReq)
  | updateService (id serviceId : String) (req : ServiceReq)
  | removeService (id serviceId : String)
  | listLinks (id : String)
  | addLink (id : String) (req : AddLinkReq)
  | updateLink (id linkId : String) (req : UpdateLinkReq)
  | removeLink (id linkId : String)
  deriving DecidableEq, Repr

/-- The database state after handling one request.  Read endpoints (health,
the GETs) perform no write. -/
def applyOp (op : Op) (db : DBState) : DBState :=
  match op with
  | .health => db
  | .list _ => db
  | .get _ => db
  | .create req => (createItem db req).2
  | .update id req => (updateItem db id req).2
  | .delete id => (deleteItem db id).2
  | .listServices _ => db
  | .addService id req => (addService db id req).2
  | .updateService id sid req => (updateService db id sid req).2
  | .removeService id sid => (removeService db id sid).2
  | .listLinks _ => db
  | .addLink id req => (addLink db id req).2
  | .updateLink id lid req => (updateLink db id lid req).2
  | .removeLink id lid => (removeLink db id lid).2

/-- The database state reached from the empty store by a sequence of
requests. -/
def runOps : List Op → DBState
  | [] => initState
  | op :: ops => applyOp op (runOps ops)

/-- The ordered endpoint pair of a link row — the column pair of the
`@@unique([sourceItemId, targetItemId])` constraint. -/
def linkKey (l : ItemLink) : String × String := (l.sourceItemId, l.targetItemId)

/-- The link-store invariant: no two link rows share the ordered
(source, target) pair. -/
def linksUnique (db : DBState) : Prop := (db.links.map linkKey).Nodup

instance (db : DBState) : Decidable (linksUnique db) :=
  List.nodupDecidable _

/-! ### Preservation of the ordered-pair uniqueness of links -/

theorem nodupKey_filter (p : ItemLink → Bool) {ls : List ItemLink}
    (h : (ls.map linkKey).Nodup) : ((ls.filter p).map linkKey).Nodup :=
  List.Nodup.sublist (List.Sublist.map linkKey (List.filter_sublist ls)) h

theorem nodupKey_map (f : ItemLink → ItemLink)
    (hf : ∀ l, linkKey (f l) = linkKey l) {ls : List ItemLink}
    (h : (ls.map linkKey).Nodup) : ((ls.map f).map linkKey).Nodup := by
  rw [List.map_map]
  have hcomp : linkKey ∘ f = linkKey := funext hf
  rw [hcomp]
  exact h

theorem nodupKey_cons (lk : ItemLink) {ls : List ItemLink}
    (h : (ls.map linkKey).Nodup)
    (hn : ∀ l ∈ ls,
      ¬(l.sourceItemId = lk.sourceItemId ∧ l.targetItemId = lk.targetItemId)) :
    ((lk :: ls).map linkKey).Nodup := by
  simp only [List.map_cons, List.nodup_cons]
  refine ⟨?_, h⟩
  intro hmem
  rcases List.mem_map.mp hmem with ⟨l, hl, hkey⟩
  exact hn l hl ⟨congrArg Prod.fst hkey, congrArg Prod.snd hkey⟩

/-- Every route handler preserves the ordered-pair uniqueness of the link
store. -/
theorem applyOp_linksUnique (op : Op) (db : DBState) (h : linksUnique db) :
    linksUnique (applyOp op db) := by
  cases op with
  | health => exact h
  | list _ => exact h
  | get _ => exact h
  | listServices _ => exact h
  | listLinks _ => exact h
  | create req =>
      simp only [applyOp, createItem]
      split
      · exact h
      · split
        · exact h
        · exact h
  | update id req =>
      simp only [applyOp, updateItem]
      cases hf : findItem db id <;> simp only [hf] <;> exact h
  | delete id =>
      simp only [applyOp, deleteItem]
      cases hf : findItem db id with
      | none => simpa only [hf] using h
      | some it =>
          simp only [hf]
          exact nodupKey_filter _ h
  | addService id req =>
      simp only [applyOp, addService]
      split
      · exact h
      · cases hf : findItem db id <;> simp only [hf] <;> exact h
  | updateService id sid req =>
      simp only [applyOp, updateService]
      split
      · exact h
      · cases hf : db.services.find?
            (fun sv => sv.id = sid ∧ sv.inventoryItemId = id) <;>
          simp only [hf] <;> exact h
  | removeService id sid =>
      simp only [applyOp, removeService]
      cases hf : db.services.find?
          (fun sv => sv.id = sid ∧ sv.inventoryItemId = id) <;>
        simp only [hf] <;> exact h
  | addLink id req =>
      simp only [applyOp, addLink]
      split
      · exact h
      · split
        · exact h
        · cases h1 : findItem db id <;>
            cases h2 : findItem db (req.linkedItemId.getD "") <;>
            simp only [h1, h2]
          · exact h
          · exact h
          · exact h
          · cases h3 : db.links.find?
                (fun l => l.sourceItemId = id ∧
                  l.targetItemId = req.linkedItemId.getD "") with
            | some ex => simp only [h3]; exact h
            | none =>
                simp only [h3]
                refine nodupKey_cons _ h ?_
                intro l hl hcontra
                have hnp := List.find?_eq_none.mp h3 l hl
                simp only [decide_eq_true_eq] at hnp
                exact hnp hcontra
  | updateLink id lid req =>
      simp only [applyOp, updateLink]
      split
      · exact h
      · cases h3 : db.links.find?
            (fun l => l.id = lid ∧ l.sourceItemId = id) with
        | none => simpa only [h3] using h
        | some l0 =>
            simp only [h3]
            refine nodupKey_map _ ?_ h
            intro l
            by_cases hid : l.id = lid <;> simp [hid, applyLinkUpdate, linkKey]
  | removeLink id lid =>
      simp only [applyOp, removeLink]
      cases h3 : db.links.find?
          (fun l => l.id = lid ∧ l.sourceItemId = id) with
      | none => simpa only [h3] using h
      | some l0 =>
          simp only [h3]
          exact nodupKey_filter _ h

/-- Every state reachable from the empty store satisfies the link-store
invariant. -/
theorem runOps_linksUnique (ops : List Op) : linksUnique (runOps ops) := by
  induction ops with
  | nil => decide
  | cons op ops ih => exact applyOp_linksUnique op _ ih

/-- Under the ordered-pair uniqueness invariant, the `findFirst` on a pair
finds exactly the member link carrying that pair. -/
theorem find?_pair_of_nodupKey :
    ∀ {ls : List ItemLink}, (ls.map linkKey).Nodup →
    ∀ {l : ItemLink}, l ∈ ls →
    ls.find? (fun x => x.sourceItemId = l.sourceItemId ∧
      x.targetItemId = l.targetItemId) = some l := by
  intro ls
  induction ls with
  | nil => intro _ l hl; cases hl
  | cons x xs ih =>
      intro hnd l hl
      rw [List.map_cons, List.nodup_cons] at hnd
      obtain ⟨hx_notin, hnd'⟩ := hnd
      cases hl with
      | head =>
          apply List.find?_cons_of_pos
          simp
      | tail _ hmem =>
          have hxp : ¬(x.sourceItemId = l.sourceItemId ∧
              x.targetItemId = l.targetItemId) := by
            rintro ⟨h1, h2⟩
            exact hx_notin (List.mem_map.mpr ⟨l, hmem, by simp [linkKey, h1, h2]⟩)
          rw [List.find?_cons_of_neg _ (by simpa using hxp)]
          exact ih hnd' hmem

/-! ### The claims -/

/-- C1: in every reachable database state there is at most one `ItemLink`
row per ordered (sourceItemId, targetItemId) pair; every endpoint operation
preserves this invariant; and links are directional — a reachable state
holds both a link A→B and a link B→A between two distinct items. -/
theorem C1_link_store_invariant (op : Op) (db : DBState) (ops : List Op)
    (h : linksUnique db) :
    linksUnique (applyOp op db) ∧
    linksUnique (runOps ops) ∧
    (∃ ops' : List Op, ∃ l₁ ∈ (runOps ops').links, ∃ l₂ ∈ (runOps ops').links,
      l₁.sourceItemId = l₂.targetItemId ∧ l₁.targetItemId = l₂.sourceItemId ∧
      l₁.sourceItemId ≠ l₁.targetItemId) := by
  refine ⟨applyOp_linksUnique op db h, runOps_linksUnique ops, ?_⟩
  exact ⟨[Op.addLink "id-1" ⟨some "id-0", some "t", none⟩,
          Op.addLink "id-0" ⟨some "id-1", some "t", none⟩,
          Op.create ⟨some "b", some "t", none, none⟩,
          Op.create ⟨some "a", some "t", none, none⟩], by decide⟩

/-- C1, instantiated: the invariant holds after one concrete request on the
empty store, on the state reached by a concrete request list, and the
directional-coexistence part. -/
theorem C1_link_store_invariant_witness :
    linksUnique (applyOp (Op.create ⟨some "a", some "t", none, none⟩) initState) ∧
    linksUnique (runOps [Op.create ⟨some "a", some "t", none, none⟩]) ∧
    (∃ ops' : List Op, ∃ l₁ ∈ (runOps ops').links, ∃ l₂ ∈ (runOps ops').links,
      l₁.sourceItemId = l₂.targetItemId ∧ l₁.targetItemId = l₂.sourceItemId ∧
      l₁.sourceItemId ≠ l₁.targetItemId) :=
  C1_link_store_invariant (Op.create ⟨some "a", some "t", none, none⟩) initState
    [Op.create ⟨some "a", some "t", none, none⟩] (by decide)

/-- C4: a `POST /api/inventory` body missing `name` or missing `type` gets a
400 response and leaves the store completely unchanged. -/
theorem C4_create_item_validation (db : DBState) (req : CreateItemReq)
    (h : req.name = none ∨ req.type = none) :
    (createItem db req).1.status = 400 ∧ (createItem db req).2 = db := by
  have hf : (falsy req.name || falsy req.type) = true := by
    rcases h with h | h <;> simp [h, falsy]
  simp [createItem, hf, CreateItemRes.status]

/-- C4, instantiated at a body with no `name`. -/
theorem C4_create_item_validation_witness :
    (createItem initState ⟨none, some "server", none, none⟩).1.status = 400 ∧
    (createItem initState ⟨none, some "server", none, none⟩).2 = initState :=
  C4_create_item_validation initState ⟨none, some "server", none, none⟩
    (Or.inl rfl)

/-- C6: when the path id matches no stored item, `PUT /api/inventory/:id`
and `DELETE /api/inventory/:id` answer with the generic 500 (the store's
own not-found failure caught by the handler), not 404, and change
nothing. -/
theorem C6_item_update_delete_missing_is_500 (db : DBState) (id : String)
    (req : UpdateItemReq) (h : ∀ it ∈ db.items, it.id ≠ id) :
    (updateItem db id req).1.status = 500 ∧
    (updateItem db id req).1.status ≠ 404 ∧
    (updateItem db id req).2 = db ∧
    (deleteItem db id).1.status = 500 ∧
    (deleteItem db id).1.status ≠ 404 ∧
    (deleteItem db id).2 = db := by
  have hf : findItem db id = none := by
    refine List.find?_eq_none.mpr ?_
    intro it hit
    simpa using h it hit
  simp [updateItem, deleteItem, hf, UpdateItemRes.status, DeleteItemRes.status]

/-- C6, instantiated on the empty store. -/
theorem C6_item_update_delete_missing_is_500_witness :
    (updateItem initState "nope" ⟨some "n", none, none⟩).1.status = 500 ∧
    (updateItem initState "nope" ⟨some "n", none, none⟩).1.status ≠ 404 ∧
    (updateItem initState "nope" ⟨some "n", none, none⟩).2 = initState ∧
    (deleteItem initState "nope").1.status = 500 ∧
    (deleteItem initState "nope").1.status ≠ 404 ∧
    (deleteItem initState "nope").2 = initState :=
  C6_item_update_delete_missing_is_500 initState "nope" ⟨some "n", none, none⟩
    (by intro it hit; simp [initState] at hit)

/-- C3: deleting a stored item removes that item, every service owned by
it, and every link having it as source or target, and nothing else: a row
survives exactly when it is an old row not covered by the cascade. -/
theorem C3_delete_item_cascades (db : DBState) (id : String)
    (h : ∃ it ∈ db.items, it.id = id) :
    (deleteItem db id).1.status = 200 ∧
    (∀ it : InventoryItem,
      it ∈ (deleteItem db id).2.items ↔ it ∈ db.items ∧ it.id ≠ id) ∧
    (∀ sv : Service,
      sv ∈ (deleteItem db id).2.services ↔
        sv ∈ db.services ∧ sv.inventoryItemId ≠ id) ∧
    (∀ l : ItemLink,
      l ∈ (deleteItem db id).2.links ↔
        l ∈ db.links ∧ l.sourceItemId ≠ id ∧ l.targetItemId ≠ id) := by
  obtain ⟨it0, hit0, hid0⟩ := h
  have hs : (findItem db id).isSome := by
    refine List.find?_isSome.mpr ⟨it0, hit0, ?_⟩
    simp [hid0]
  cases hf : findItem db id with
  | none => rw [hf] at hs; simp at hs
  | some x =>
      refine ⟨by simp [deleteItem, hf, DeleteItemRes.status], ?_, ?_, ?_⟩ <;>
        intro r <;>
        simp [deleteItem, hf, List.mem_filter]

/-- C3, instantiated on a store holding two items, a service on each, and
links in both directions between them: deleting the first item keeps
exactly the second item, its service, and no link. -/
theorem C3_delete_item_cascades_witness :
    (deleteItem (runOps
      [Op.addService "id-1" ⟨some "svcB", none⟩,
       Op.addService "id-0" ⟨some "svcA", none⟩,
       Op.addLink "id-1" ⟨some "id-0", some "t", none⟩,
       Op.addLink "id-0" ⟨some "id-1", some "t", none⟩,
       Op.create ⟨some "b", some "t", none, none⟩,
       Op.create ⟨some "a", some "t", none, none⟩]) "id-0").1.status = 200 ∧
    (∀ it : InventoryItem,
      it ∈ (deleteItem (runOps
      [Op.addService "id-1" ⟨some "svcB", none⟩,
       Op.addService "id-0" ⟨some "svcA", none⟩,
       Op.addLink "id-1" ⟨some "id-0", some "t", none⟩,
       Op.addLink "id-0" ⟨some "id-1", some "t", none⟩,
       Op.create ⟨some "b", some "t", none, none⟩,
       Op.create ⟨some "a", some "t", none, none⟩]) "id-0").2.items ↔
        it ∈ (runOps
      [Op.addService "id-1" ⟨some "svcB", none⟩,
       Op.addService "id-0" ⟨some "svcA", none⟩,
       Op.addLink "id-1" ⟨some "id-0", some "t", none⟩,
       Op.addLink "id-0" ⟨some "id-1", some "t", none⟩,
       Op.create ⟨some "b", some "t", none, none⟩,
       Op.create ⟨some "a", some "t", none, none⟩]).items ∧ it.id ≠ "id-0") ∧
    (∀ sv : Service,
      sv ∈ (deleteItem (runOps
      [Op.addService "id-1" ⟨some "svcB", none⟩,
       Op.addService "id-0" ⟨some "svcA", none⟩,
       Op.addLink "id-1" ⟨some "id-0", some "t", none⟩,
       Op.addLink "id-0" ⟨some "id-1", some "t", none⟩,
       Op.create ⟨some "b", some "t", none, none⟩,
       Op.create ⟨some "a", some "t", none, none⟩]) "id-0").2.services ↔
        sv ∈ (runOps
      [Op.addService "id-1" ⟨some "svcB", none⟩,
       Op.addService "id-0" ⟨some "svcA", none⟩,
       Op.addLink "id-1" ⟨some "id-0", some "t", none⟩,
       Op.addLink "id-0" ⟨some "id-1", some "t", none⟩,
       Op.create ⟨some "b", some "t", none, none⟩,
       Op.create ⟨some "a", some "t", none, none⟩]).services ∧
          sv.inventoryItemId ≠ "id-0") ∧
    (∀ l : ItemLink,
      l ∈ (deleteItem (runOps
      [Op.addService "id-1" ⟨some "svcB", none⟩,
       Op.addService "id-0" ⟨some "svcA", none⟩,
       Op.addLink "id-1" ⟨some "id-0", some "t", none⟩,
       Op.addLink "id-0" ⟨some "id-1", some "t", none⟩,
       Op.create ⟨some "b", some "t", none, none⟩,
       Op.create ⟨some "a", some "t", none, none⟩]) "id-0").2.links ↔
        l ∈ (runOps
      [Op.addService "id-1" ⟨some "svcB", none⟩,
       Op.addService "id-0" ⟨some "svcA", none⟩,
       Op.addLink "id-1" ⟨some "id-0", some "t", none⟩,
       Op.addLink "id-0" ⟨some "id-1", some "t", none⟩,
       Op.create ⟨some "b", some "t", none, none⟩,
       Op.create ⟨some "a", some "t", none, none⟩]).links ∧
          l.sourceItemId ≠ "id-0" ∧ l.targetItemId ≠ "id-0") :=
  C3_delete_item_cascades _ "id-0" (by decide)

/-- C2: when a link with the ordered pair (itemId, tgtId) already exists
and both items exist, `addLink` answers 409 with the existing link in the
body and leaves the database (so in particular the original link's fields)
unchanged; when no such link exists it creates the link and answers 201
with the target item attached. -/
theorem C2_add_link_conflict_or_create (db : DBState)
    (itemId tgtId lt : String) (port : Option String)
    (hu : linksUnique db)
    (hsrc : ∃ it ∈ db.items, it.id = itemId)
    (htgt : ∃ it ∈ db.items, it.id = tgtId)
    (htgtne : tgtId ≠ "") (hlt : lt ≠ "") :
    (∀ l ∈ db.links, l.sourceItemId = itemId → l.targetItemId = tgtId →
      addLink db itemId ⟨some tgtId, some lt, port⟩ = (.conflict l, db) ∧
      (AddLinkRes.conflict l).status = 409) ∧
    ((∀ l ∈ db.links, ¬(l.sourceItemId = itemId ∧ l.targetItemId = tgtId)) →
      ∃ lk t, addLink db itemId ⟨some tgtId, some lt, port⟩ =
          (.created lk t,
            { db with links := lk :: db.links, nextId := db.nextId + 1 }) ∧
        (AddLinkRes.created lk t).status = 201 ∧
        lk.sourceItemId = itemId ∧ lk.targetItemId = tgtId ∧
        lk.linkType = lt ∧ lk.port = port ∧ t ∈ db.items ∧ t.id = tgtId) := by
  have hft : falsy (some tgtId) = false := by simp [falsy, htgtne]
  have hfl : falsy (some lt) = false := by simp [falsy, hlt]
  obtain ⟨s0, hs0, hs0id⟩ := hsrc
  obtain ⟨t0, ht0, ht0id⟩ := htgt
  cases hf1 : findItem db itemId with
  | none =>
      exfalso
      have := List.find?_eq_none.mp hf1 s0 hs0
      simp [hs0id] at this
  | some s =>
  cases hf2 : findItem db tgtId with
  | none =>
      exfalso
      have := List.find?_eq_none.mp hf2 t0 ht0
      simp [ht0id] at this
  | some t =>
  have ht_mem : t ∈ db.items := List.mem_of_find?_eq_some hf2
  have ht_id : t.id = tgtId := by
    have := List.find?_some hf2
    simpa using this
  constructor
  · intro l hl h1 h2
    have hfind : db.links.find?
        (fun x => x.sourceItemId = itemId ∧ x.targetItemId = tgtId) = some l := by
      rw [← h1, ← h2]
      exact find?_pair_of_nodupKey hu hl
    simp only [Bool.decide_and] at hfind
    refine ⟨?_, rfl⟩
    simp [addLink, hft, hfl, hf1, hf2, hfind]
  · intro hnone
    have hfind : db.links.find?
        (fun x => x.sourceItemId = itemId ∧ x.targetItemId = tgtId) = none := by
      refine List.find?_eq_none.mpr ?_
      intro x hx
      simpa using hnone x hx
    simp only [Bool.decide_and] at hfind
    refine ⟨{ id := genId db.nextId, linkType := lt, port := port,
              createdAt := db.nextId, sourceItemId := itemId,
              targetItemId := tgtId }, t,
            ?_, rfl, rfl, rfl, rfl, rfl, ht_mem, ht_id⟩
    simp [addLink, hft, hfl, hf1, hf2, hfind]

/-- C2, instantiated: on a store with items "id-0", "id-1" and the link
"id-0"→"id-1", re-adding that link answers 409 unchanged, and adding a
fresh pair creates it with 201. -/
theorem C2_add_link_conflict_or_create_witness :
    (∀ l ∈ (runOps
        [Op.addLink "id-0" ⟨some "id-1", some "t", none⟩,
         Op.create ⟨some "b", some "t", none, none⟩,
         Op.create ⟨some "a", some "t", none, none⟩]).links,
      l.sourceItemId = "id-0" → l.targetItemId = "id-1" →
      addLink (runOps
        [Op.addLink "id-0" ⟨some "id-1", some "t", none⟩,
         Op.create ⟨some "b", some "t", none, none⟩,
         Op.create ⟨some "a", some "t", none, none⟩]) "id-0"
          ⟨some "id-1", some "eth", some "8080"⟩ = (.conflict l, runOps
        [Op.addLink "id-0" ⟨some "id-1", some "t", none⟩,
         Op.create ⟨some "b", some "t", none, none⟩,
         Op.create ⟨some "a", some "t", none, none⟩]) ∧
      (AddLinkRes.conflict l).status = 409) ∧
    ((∀ l ∈ (runOps
        [Op.addLink "id-0" ⟨some "id-1", some "t", none⟩,
         Op.create ⟨some "b", some "t", none, none⟩,
         Op.create ⟨some "a", some "t", none, none⟩]).links,
      ¬(l.sourceItemId = "id-0" ∧ l.targetItemId = "id-1")) →
      ∃ lk t, addLink (runOps
        [Op.addLink "id-0" ⟨some "id-1", some "t", none⟩,
         Op.create ⟨some "b", some "t", none, none⟩,
         Op.create ⟨some "a", some "t", none, none⟩]) "id-0"
          ⟨some "id-1", some "eth", some "8080"⟩ =
          (.created lk t,
            { runOps
        [Op.addLink "id-0" ⟨some "id-1", some "t", none⟩,
         Op.create ⟨some "b", some "t", none, none⟩,
         Op.create ⟨some "a", some "t", none, none⟩] with
              links := lk :: (runOps
        [Op.addLink "id-0" ⟨some "id-1", some "t", none⟩,
         Op.create ⟨some "b", some "t", none, none⟩,
         Op.create ⟨some "a", some "t", none, none⟩]).links,
              nextId := (runOps
        [Op.addLink "id-0" ⟨some "id-1", some "t", none⟩,
         Op.create ⟨some "b", some "t", none, none⟩,
         Op.create ⟨some "a", some "t", none, none⟩]).nextId + 1 }) ∧
        (AddLinkRes.created lk t).status = 201 ∧
        lk.sourceItemId = "id-0" ∧ lk.targetItemId = "id-1" ∧
        lk.linkType = "eth" ∧ lk.port = some "8080" ∧
        t ∈ (runOps
        [Op.addLink "id-0" ⟨some "id-1", some "t", none⟩,
         Op.create ⟨some "b", some "t", none, none⟩,
         Op.create ⟨some "a", some "t", none, none⟩]).items ∧ t.id = "id-1") :=
  C2_add_link_conflict_or_create _ "id-0" "id-1" "eth" (some "8080")
    (by decide) (by decide) (by decide) (by decide) (by decide)

/-- C10: self-links are permitted — for an existing item X with no stored
(X, X) link, `addLink X X` answers 201 and creates a link whose source and
target are both X, and a second identical attempt answers 409 and changes
nothing. -/
theorem C10_self_links (db : DBState) (x lt : String) (port : Option String)
    (hx : ∃ it ∈ db.items, it.id = x)
    (hxne : x ≠ "") (hlt : lt ≠ "")
    (hno : ∀ l ∈ db.links, ¬(l.sourceItemId = x ∧ l.targetItemId = x)) :
    ∃ lk t, addLink db x ⟨some x, some lt, port⟩ =
        (.created lk t,
          { db with links := lk :: db.links, nextId := db.nextId + 1 }) ∧
      (AddLinkRes.created lk t).status = 201 ∧
      lk.sourceItemId = x ∧ lk.targetItemId = x ∧
      (addLink { db with links := lk :: db.links, nextId := db.nextId + 1 } x
          ⟨some x, some lt, port⟩).1 = .conflict lk ∧
      (AddLinkRes.conflict lk).status = 409 ∧
      (addLink { db with links := lk :: db.links, nextId := db.nextId + 1 } x
          ⟨some x, some lt, port⟩).2 =
        { db with links := lk :: db.links, nextId := db.nextId + 1 } := by
  have hfx : falsy (some x) = false := by simp [falsy, hxne]
  have hfl : falsy (some lt) = false := by simp [falsy, hlt]
  obtain ⟨it0, hit0, hid0⟩ := hx
  cases hf : findItem db x with
  | none =>
      exfalso
      have := List.find?_eq_none.mp hf it0 hit0
      simp [hid0] at this
  | some s =>
      have hfind : db.links.find?
          (fun l => l.sourceItemId = x ∧ l.targetItemId = x) = none := by
        refine List.find?_eq_none.mpr ?_
        intro l hl
        simpa using hno l hl
      simp only [Bool.decide_and] at hfind
      have hf2 : db.items.find? (fun it => decide (it.id = x)) = some s := hf
      refine ⟨{ id := genId db.nextId, linkType := lt, port := port,
                createdAt := db.nextId, sourceItemId := x,
                targetItemId := x }, s, ?_, rfl, rfl, rfl, ?_, rfl, ?_⟩
      · simp [addLink, hfx, hfl, hf, hfind]
      · simp [addLink, findItem, hfx, hfl, hf2, List.find?]
      · simp [addLink, findItem, hfx, hfl, hf2, List.find?]

/-- C10, instantiated: with one item "id-0" in the store, a self-link on it
answers 201, and repeating the request answers 409. -/
theorem C10_self_links_witness :
    (addLink (runOps [Op.create ⟨some "a", some "t", none, none⟩]) "id-0"
      ⟨some "id-0", some "conn", none⟩).1.status = 201 ∧
    (addLink (addLink (runOps [Op.create ⟨some "a", some "t", none, none⟩])
        "id-0" ⟨some "id-0", some "conn", none⟩).2 "id-0"
      ⟨some "id-0", some "conn", none⟩).1.status = 409 := by
  obtain ⟨lk, t, heq, h201, hsrc, htgt, hconf, h409, hstate⟩ :=
    C10_self_links (runOps [Op.create ⟨some "a", some "t", none, none⟩])
      "id-0" "conn" none (by decide) (by decide) (by decide) (by decide)
  constructor
  · have h1 := congrArg (fun p => AddLinkRes.status p.1) heq
    exact h1.trans h201
  · have h2 := congrArg
      (fun p => (addLink p.2 "id-0"
        (⟨some "id-0", some "conn", none⟩ : AddLinkReq)).1.status) heq
    exact h2.trans ((congrArg AddLinkRes.status hconf).trans h409)

/-- C5: a service row that exists under a different parent item makes
`updateService` and `removeService` answer 404 and write nothing, and the
same wrong-parent check (on the link's `sourceItemId`) holds for
`updateLink` and `removeLink`. -/
theorem C5_wrong_parent_is_404 (db : DBState)
    (itemId serviceId linkId : String)
    (sreq : ServiceReq) (lreq : UpdateLinkReq)
    (hsname : falsy sreq.name = false) (hltype : falsy lreq.linkType = false)
    (hsvc : ∃ sv ∈ db.services, sv.id = serviceId)
    (hsvcw : ∀ sv ∈ db.services, sv.id = serviceId →
      sv.inventoryItemId ≠ itemId)
    (hlink : ∃ l ∈ db.links, l.id = linkId)
    (hlinkw : ∀ l ∈ db.links, l.id = linkId → l.sourceItemId ≠ itemId) :
    updateService db itemId serviceId sreq = (.notFound, db) ∧
    removeService db itemId serviceId = (.notFound, db) ∧
    updateLink db itemId linkId lreq = (.notFound, db) ∧
    removeLink db itemId linkId = (.notFound, db) ∧
    ServiceRes.notFound.status = 404 ∧ LinkRes.notFound.status = 404 := by
  have hsf : db.services.find?
      (fun sv => sv.id = serviceId ∧ sv.inventoryItemId = itemId) = none := by
    refine List.find?_eq_none.mpr ?_
    intro sv hsv
    simp only [decide_eq_true_eq, not_and]
    intro h1
    exact hsvcw sv hsv h1
  have hlf : db.links.find?
      (fun l => l.id = linkId ∧ l.sourceItemId = itemId) = none := by
    refine List.find?_eq_none.mpr ?_
    intro l hl
    simp only [decide_eq_true_eq, not_and]
    intro h1
    exact hlinkw l hl h1
  simp only [Bool.decide_and] at hsf hlf
  refine ⟨?_, ?_, ?_, ?_, rfl, rfl⟩ <;>
    simp [updateService, removeService, updateLink, removeLink,
      hsname, hltype, hsf, hlf]

/-- C5, instantiated: a store with items "id-0" and "id-1", a service and a
self-link on "id-0", addressed through parent "id-1". -/
theorem C5_wrong_parent_is_404_witness :
    updateService (runOps
      [Op.addLink "id-0" ⟨some "id-0", some "t", none⟩,
       Op.addService "id-0" ⟨some "svc", none⟩,
       Op.create ⟨some "b", some "t", none, none⟩,
       Op.create ⟨some "a", some "t", none, none⟩]) "id-1" "id-2"
        ⟨some "renamed", none⟩ = (.notFound, runOps
      [Op.addLink "id-0" ⟨some "id-0", some "t", none⟩,
       Op.addService "id-0" ⟨some "svc", none⟩,
       Op.create ⟨some "b", some "t", none, none⟩,
       Op.create ⟨some "a", some "t", none, none⟩]) ∧
    removeService (runOps
      [Op.addLink "id-0" ⟨some "id-0", some "t", none⟩,
       Op.addService "id-0" ⟨some "svc", none⟩,
       Op.create ⟨some "b", some "t", none, none⟩,
       Op.create ⟨some "a", some "t", none, none⟩]) "id-1" "id-2" =
      (.notFound, runOps
      [Op.addLink "id-0" ⟨some "id-0", some "t", none⟩,
       Op.addService "id-0" ⟨some "svc", none⟩,
       Op.create ⟨some "b", some "t", none, none⟩,
       Op.create ⟨some "a", some "t", none, none⟩]) ∧
    updateLink (runOps
      [Op.addLink "id-0" ⟨some "id-0", some "t", none⟩,
       Op.addService "id-0" ⟨some "svc", none⟩,
       Op.create ⟨some "b", some "t", none, none⟩,
       Op.create ⟨some "a", some "t", none, none⟩]) "id-1" "id-3"
        ⟨some "u", none⟩ = (.notFound, runOps
      [Op.addLink "id-0" ⟨some "id-0", some "t", none⟩,
       Op.addService "id-0" ⟨some "svc", none⟩,
       Op.create ⟨some "b", some "t", none, none⟩,
       Op.create ⟨some "a", some "t", none, none⟩]) ∧
    removeLink (runOps
      [Op.addLink "id-0" ⟨some "id-0", some "t", none⟩,
       Op.addService "id-0" ⟨some "svc", none⟩,
       Op.create ⟨some "b", some "t", none, none⟩,
       Op.create ⟨some "a", some "t", none, none⟩]) "id-1" "id-3" =
      (.notFound, runOps
      [Op.addLink "id-0" ⟨some "id-0", some "t", none⟩,
       Op.addService "id-0" ⟨some "svc", none⟩,
       Op.create ⟨some "b", some "t", none, none⟩,
       Op.create ⟨some "a", some "t", none, none⟩]) ∧
    ServiceRes.notFound.status = 404 ∧ LinkRes.notFound.status = 404 :=
  C5_wrong_parent_is_404 _ "id-1" "id-2" "id-3" ⟨some "renamed", none⟩
    ⟨some "u", none⟩ (by decide) (by decide) (by decide) (by decide)
    (by decide) (by decide)

/-- C8: with both links A→B and B→A present, deleting one through
`removeLink` on its source item succeeds and leaves the other link row —
the very same row, all fields included — in the store, and touches no item
or service row. -/
theorem C8_reverse_links_independent (db : DBState) (l₁ l₂ : ItemLink)
    (h₁ : l₁ ∈ db.links) (h₂ : l₂ ∈ db.links)
    (hrev : l₁.sourceItemId = l₂.targetItemId ∧
      l₁.targetItemId = l₂.sourceItemId)
    (hids : l₁.id ≠ l₂.id) :
    (removeLink db l₂.sourceItemId l₂.id).1 = .deleted ∧
    (LinkRes.deleted).status = 200 ∧
    l₁ ∈ (removeLink db l₂.sourceItemId l₂.id).2.links ∧
    (removeLink db l₂.sourceItemId l₂.id).2.items = db.items ∧
    (removeLink db l₂.sourceItemId l₂.id).2.services = db.services := by
  cases hf : db.links.find?
      (fun l => l.id = l₂.id ∧ l.sourceItemId = l₂.sourceItemId) with
  | none =>
      exfalso
      have := List.find?_eq_none.mp hf l₂ h₂
      simp at this
  | some l0 =>
      simp only [Bool.decide_and] at hf
      refine ⟨?_, rfl, ?_, ?_, ?_⟩ <;>
        simp [removeLink, hf, List.mem_filter, h₁, hids]

/-- C8, instantiated on the store holding items "id-0", "id-1" and links in
both directions between them: removing the link "id-1"→"id-0" keeps the
row of the link "id-0"→"id-1". -/
theorem C8_reverse_links_independent_witness :
    (removeLink (runOps
      [Op.addLink "id-1" ⟨some "id-0", some "t", none⟩,
       Op.addLink "id-0" ⟨some "id-1", some "t", none⟩,
       Op.create ⟨some "b", some "t", none, none⟩,
       Op.create ⟨some "a", some "t", none, none⟩]) "id-1" "id-3").1 =
      .deleted ∧
    (LinkRes.deleted).status = 200 ∧
    (⟨"id-2", "t", none, 2, "id-0", "id-1"⟩ : ItemLink) ∈
      (removeLink (runOps
      [Op.addLink "id-1" ⟨some "id-0", some "t", none⟩,
       Op.addLink "id-0" ⟨some "id-1", some "t", none⟩,
       Op.create ⟨some "b", some "t", none, none⟩,
       Op.create ⟨some "a", some "t", none, none⟩]) "id-1" "id-3").2.links ∧
    (removeLink (runOps
      [Op.addLink "id-1" ⟨some "id-0", some "t", none⟩,
       Op.addLink "id-0" ⟨some "id-1", some "t", none⟩,
       Op.create ⟨some "b", some "t", none, none⟩,
       Op.create ⟨some "a", some "t", none, none⟩]) "id-1" "id-3").2.items =
      (runOps
      [Op.addLink "id-1" ⟨some "id-0", some "t", none⟩,
       Op.addLink "id-0" ⟨some "id-1", some "t", none⟩,
       Op.create ⟨some "b", some "t", none, none⟩,
       Op.create ⟨some "a", some "t", none, none⟩]).items ∧
    (removeLink (runOps
      [Op.addLink "id-1" ⟨some "id-0", some "t", none⟩,
       Op.addLink "id-0" ⟨some "id-1", some "t", none⟩,
       Op.create ⟨some "b", some "t", none, none⟩,
       Op.create ⟨some "a", some "t", none, none⟩]) "id-1" "id-3").2.services =
      (runOps
      [Op.addLink "id-1" ⟨some "id-0", some "t", none⟩,
       Op.addLink "id-0" ⟨some "id-1", some "t", none⟩,
       Op.create ⟨some "b", some "t", none, none⟩,
       Op.create ⟨some "a", some "t", none, none⟩]).services :=
  C8_reverse_links_independent _
    ⟨"id-2", "t", none, 2, "id-0", "id-1"⟩
    ⟨"id-3", "t", none, 3, "id-1", "id-0"⟩
    (by decide) (by decide) (by decide) (by decide)

/-- C9: the required-field validation treats the empty string like a
missing field — a create/update body whose `name`, `type`, `linkType` or
`linkedItemId` is `""` gets a 400 and writes nothing, on every endpoint
carrying that check. -/
theorem C9_empty_string_counts_as_missing (db : DBState)
    (t nm ip img pt ltOpt tgtOpt : Option String)
    (svcs : Option (List ServiceEntry)) (iid lid : String) :
    createItem db ⟨some "", t, ip, svcs⟩ = (.badRequest, db) ∧
    createItem db ⟨nm, some "", ip, svcs⟩ = (.badRequest, db) ∧
    addService db iid ⟨some "", img⟩ = (.badRequest, db) ∧
    addLink db iid ⟨some "", ltOpt, pt⟩ = (.badRequest, db) ∧
    addLink db iid ⟨tgtOpt, some "", pt⟩ = (.badRequest, db) ∧
    updateLink db iid lid ⟨some "", pt⟩ = (.badRequest, db) ∧
    CreateItemRes.badRequest.status = 400 ∧
    ServiceRes.badRequest.status = 400 ∧
    AddLinkRes.badRequest.status = 400 ∧
    LinkRes.badRequest.status = 400 := by
  refine ⟨?_, ?_, ?_, ?_, ?_, ?_, rfl, rfl, rfl, rfl⟩ <;>
    simp [createItem, addService, addLink, updateLink, falsy]

/-- Membership in the eagerly loaded outgoing-link array. -/
theorem mem_outgoingOf (db : DBState) (i : String) (lw : LinkWithItem) :
    lw ∈ outgoingOf db i ↔
      lw.link ∈ db.links ∧ lw.link.sourceItemId = i ∧
        lw.relatedItem = findItem db lw.link.targetItemId := by
  cases lw with
  | mk lk rel =>
      simp only [outgoingOf, List.mem_map, List.mem_filter,
        decide_eq_true_eq, LinkWithItem.mk.injEq]
      constructor
      · rintro ⟨l, ⟨hl, hs⟩, rfl, hrel⟩
        exact ⟨hl, hs, hrel.symm⟩
      · rintro ⟨hl, hs, hrel⟩
        exact ⟨lk, ⟨hl, hs⟩, rfl, hrel.symm⟩

/-- Membership in the eagerly loaded incoming-link array. -/
theorem mem_incomingOf (db : DBState) (i : String) (lw : LinkWithItem) :
    lw ∈ incomingOf db i ↔
      lw.link ∈ db.links ∧ lw.link.targetItemId = i ∧
        lw.relatedItem = findItem db lw.link.sourceItemId := by
  cases lw with
  | mk lk rel =>
      simp only [incomingOf, List.mem_map, List.mem_filter,
        decide_eq_true_eq, LinkWithItem.mk.injEq]
      constructor
      · rintro ⟨l, ⟨hl, hs⟩, rfl, hrel⟩
        exact ⟨hl, hs, hrel.symm⟩
      · rintro ⟨hl, hs, hrel⟩
        exact ⟨lk, ⟨hl, hs⟩, rfl, hrel.symm⟩

/-- C7: `GET /api/inventory` returns all stored items ordered by
`createdAt` ascending; with `includeLinks=true` every returned item
carries an outgoing-link array (target item nested) and an incoming-link
array (source item nested); with `includeLinks` absent or `"false"`
neither array is present. -/
theorem C7_list_endpoint (db : DBState) (q : Option String) :
    ((listItems db q).map ItemView.item).Perm db.items ∧
    List.Sorted byCreatedAt ((listItems db q).map ItemView.item) ∧
    (q = some "true" →
      ∀ v ∈ listItems db q,
        (∃ outs, v.outgoingLinks = some outs ∧
          ∀ lw : LinkWithItem, lw ∈ outs ↔
            lw.link ∈ db.links ∧ lw.link.sourceItemId = v.item.id ∧
              lw.relatedItem = findItem db lw.link.targetItemId) ∧
        (∃ ins, v.incomingLinks = some ins ∧
          ∀ lw : LinkWithItem, lw ∈ ins ↔
            lw.link ∈ db.links ∧ lw.link.targetItemId = v.item.id ∧
              lw.relatedItem = findItem db lw.link.sourceItemId)) ∧
    ((q = none ∨ q = some "false") →
      ∀ v ∈ listItems db q, v.outgoingLinks = none ∧ v.incomingLinks = none) := by
  have hmap : (listItems db q).map ItemView.item =
      List.insertionSort byCreatedAt db.items := by
    simp only [listItems, List.map_map]
    show List.map (fun it : InventoryItem => it)
      (List.insertionSort byCreatedAt db.items) =
      List.insertionSort byCreatedAt db.items
    simp
  refine ⟨?_, ?_, ?_, ?_⟩
  · rw [hmap]
    exact List.perm_insertionSort byCreatedAt db.items
  · rw [hmap]
    exact List.sorted_insertionSort byCreatedAt db.items
  · rintro rfl v hv
    simp only [listItems, List.mem_map] at hv
    obtain ⟨it, hit, rfl⟩ := hv
    refine ⟨⟨outgoingOf db it.id, by simp, fun lw => mem_outgoingOf db it.id lw⟩,
            ⟨incomingOf db it.id, by simp, fun lw => mem_incomingOf db it.id lw⟩⟩
  · intro hq v hv
    simp only [listItems, List.mem_map] at hv
    obtain ⟨it, hit, rfl⟩ := hv
    rcases hq with rfl | rfl <;> simp

end Topolyn
